import Mathlib

set_option autoImplicit false

/-
A shallow embedding of the @cloudwell/simple-dialog components
(src/simple-dialog.tsx): SimpleDialog, AlertDialog, ConfirmDialog and
PromptDialog, together with the parts of their Fluent UI prop surface that
the components actually touch.

Modelling conventions:
* JavaScript runtime values that flow through the components (handler
  return values, event objects, the message list entries) are modelled by
  the inductive `JSVal`.  Objects carry an explicit reference number, so
  strict equality (the `!==` used for message dismissal) compares objects
  by reference and primitives by value, as in JavaScript.
* A TypeScript optional field is an `Option`; a key that is absent from an
  object literal is `none`.  Object spread `{ a, ...b }` therefore becomes
  a field-by-field `Option.orElse` merge in which the later object wins
  for every key it carries.
* Caller-supplied callbacks are modelled by their return behaviour
  (`List JSVal → JSVal`, from an argument list to a result), and every
  invocation of the onClose callback is recorded in a `closeCalls` trace:
  one entry per call, holding the exact argument list of that call.
-/

namespace SimpleDialogSpec

/-- JavaScript runtime values, as far as the components observe them.
`obj` is a generic object (for example a click event) identified by its
reference number; `msgObj` is an object shaped like
ISimpleDialogMessageProps, again with an explicit reference number plus
its `type` (MessageBarType, as a numeral) and `text` fields. -/
inductive JSVal where
  | undefined
  | null
  | bool (b : Bool)
  | num (n : Int)
  | str (s : String)
  | obj (ref : Nat)
  | msgObj (ref : Nat) (barType : Nat) (text : String)
  deriving DecidableEq, Repr

/-- JavaScript truthiness of a value. -/
def truthy : JSVal → Bool
  | .undefined => false
  | .null => false
  | .bool b => b
  | .num n => n != 0
  | .str s => s != ""
  | .obj _ => true
  | .msgObj _ _ _ => true

/-- JavaScript strict equality: primitives by value, objects by
reference. -/
def jsStrictEq : JSVal → JSVal → Bool
  | .undefined, .undefined => true
  | .null, .null => true
  | .bool a, .bool b => a == b
  | .num a, .num b => a == b
  | .str a, .str b => a == b
  | .obj i, .obj j => i == j
  | .msgObj i _ _, .msgObj j _ _ => i == j
  | _, _ => false

/-- The outcome of invoking a JavaScript function: the onClose
invocations it performed (each entry is the argument list of one call)
and its return value. -/
structure HandlerOutcome where
  closeCalls : List (List JSVal)
  ret : JSVal

/-- The value of an `onClick` property: either a function (applied to its
argument list) or a non-callable value. -/
inductive Handler where
  | fn (f : List JSVal → HandlerOutcome)
  | nonCallable (v : JSVal)

/-- Truthiness of the `onClick` field of a button descriptor
(`b.onClick` in the render guard): a function is truthy, a non-callable
value has its own truthiness, an absent field is `undefined`. -/
def onClickTruthy : Option Handler → Bool
  | some (.fn _) => true
  | some (.nonCallable v) => truthy v
  | none => false

/-- Truthiness of an optional string property (such as `b.href`). -/
def strTruthyOpt : Option String → Bool
  | some s => s != ""
  | none => false

/-- Truthiness of an optional boolean property (such as
`messageAsLabel`). -/
def boolTruthyOpt : Option Bool → Bool
  | some b => b
  | none => false

/-- The JavaScript `x || d` idiom on an optional string, as used for the
default button labels and the title. -/
def jsOrStr (o : Option String) (d : String) : String :=
  match o with
  | some s => if s == "" then d else s
  | none => d

/-- The string-or-undefined value of the prompt field, lowered to a
`JSVal`. -/
def jsOfOptStr : Option String → JSVal
  | some s => .str s
  | none => .undefined

/-- The Fluent UI SimpleDialogButtonType enumeration. -/
inductive SimpleDialogButtonType where
  | Primary
  | Default
  deriving DecidableEq, Repr

/-- ISimpleDialogButtonProps: a button descriptor.  `styles` is an opaque
passthrough value. -/
structure SimpleDialogButtonProps where
  type : SimpleDialogButtonType
  text : String
  styles : Option JSVal
  onClick : Option Handler
  href : Option String
  target : Option String

/--
SimpleDialog._onButtonClicked: runs
`var buttonResult = typeof button.onClick === "function" && button.onClick(event);`
and, when `buttonResult` is truthy, appends it to the end of the message
list.  Returns the onClose invocations performed by the handler together
with the new message list.
-/
def onButtonClicked (onClick : Option Handler) (event : JSVal)
    (messages : List JSVal) : List (List JSVal) × List JSVal :=
  match onClick with
  | some (.fn f) =>
      let out := f [event]
      (out.closeCalls,
        if truthy out.ret then messages ++ [out.ret] else messages)
  | _ => ([], messages)

/-- SimpleDialog._onMessageDismissed:
`this.state.messages.filter(m => m !== message)`. -/
def onMessageDismissed (message : JSVal) (messages : List JSVal) :
    List JSVal :=
  messages.filter (fun m => !(jsStrictEq m message))

/-- A sequence of button activations against a SimpleDialog instance:
each element is the onClick property of the activated button and the
triggering event.  Returns the concatenated onClose traces in activation
order and the final message list. -/
def runClicks (clicks : List (Option Handler × JSVal))
    (messages : List JSVal) : List (List JSVal) × List JSVal :=
  match clicks with
  | [] => ([], messages)
  | (h, ev) :: rest =>
      let step := onButtonClicked h ev messages
      let acc := runClicks rest step.2
      (step.1 ++ acc.1, acc.2)

/-- Specification helper: the messages that a single activation appends
(a singleton exactly when the handler is callable and its result is
truthy). -/
def appendedByClick (onClick : Option Handler) (event : JSVal) :
    List JSVal :=
  match onClick with
  | some (.fn f) =>
      if truthy (f [event]).ret then [(f [event]).ret] else []
  | _ => []

/-- The Fluent UI DialogType enumeration (the component only mentions
`normal`). -/
inductive DialogTypeV where
  | normal
  | largeHeader
  | close
  deriving DecidableEq, Repr

/-- The fields of IDialogContentProps that the component either sets or
forwards.  `subText` stands for an arbitrary caller passthrough field. -/
structure DialogContentPropsObj where
  type : Option DialogTypeV
  showCloseButton : Option Bool
  title : Option String
  subText : Option String
  deriving DecidableEq, Repr

/-- The empty IDialogContentProps object literal. -/
def emptyContentProps : DialogContentPropsObj :=
  { type := none, showCloseButton := none, title := none, subText := none }

/-- Object spread `{ ...a, ...b }` on IDialogContentProps: for every key,
the later object wins when it carries the key. -/
def spreadContentProps (a b : DialogContentPropsObj) :
    DialogContentPropsObj :=
  { type := b.type.orElse (fun _ => a.type)
    showCloseButton := b.showCloseButton.orElse (fun _ => a.showCloseButton)
    title := b.title.orElse (fun _ => a.title)
    subText := b.subText.orElse (fun _ => a.subText) }

/-- The `styles.main` object set by the component on the modal. -/
structure ModalMainStyles where
  minWidth : Nat
  maxWidth : Nat
  deriving DecidableEq, Repr

/-- The fields of IModalProps that the component either sets or forwards.
`className` stands for an arbitrary caller passthrough field. -/
structure ModalPropsObj where
  isBlocking : Option Bool
  styles : Option ModalMainStyles
  className : Option String
  deriving DecidableEq, Repr

/-- The empty IModalProps object literal. -/
def emptyModalProps : ModalPropsObj :=
  { isBlocking := none, styles := none, className := none }

/-- Object spread `{ ...a, ...b }` on IModalProps. -/
def spreadModalProps (a b : ModalPropsObj) : ModalPropsObj :=
  { isBlocking := b.isBlocking.orElse (fun _ => a.isBlocking)
    styles := b.styles.orElse (fun _ => a.styles)
    className := b.className.orElse (fun _ => a.className) }

/-- The fields of IDialogProps that a caller may pass through the
`dialogProps` prop; `className` stands for an arbitrary passthrough
field, and `hidden` is the field the component forcibly overrides. -/
structure DialogPropsObj where
  hidden : Option Bool
  className : Option String
  deriving DecidableEq, Repr

/-- The empty IDialogProps object literal. -/
def emptyDialogProps : DialogPropsObj :=
  { hidden := none, className := none }

/-- The attributes of the Dialog element produced by SimpleDialog.render
after JSX attribute resolution (spread first, later named attributes
win). -/
structure DialogAttrs where
  hidden : Option Bool
  className : Option String
  dialogContentProps : DialogContentPropsObj
  modalProps : ModalPropsObj
  deriving DecidableEq, Repr

/-- The merged dialogContentProps attribute of SimpleDialog.render:
`{ type: DialogType.normal, showCloseButton: false, ...dialogContentProps, title: title || '' }`. -/
def mergedContentProps (title : Option String)
    (dcp : Option DialogContentPropsObj) : DialogContentPropsObj :=
  let defaults : DialogContentPropsObj :=
    { type := some .normal, showCloseButton := some false,
      title := none, subText := none }
  let merged := spreadContentProps defaults (dcp.getD emptyContentProps)
  { merged with title := some (jsOrStr title "") }

/-- The merged modalProps attribute of SimpleDialog.render:
`{ isBlocking: true, styles: { main: { minWidth: 450, maxWidth: 450 } }, ...modalProps }`. -/
def mergedModalProps (mp : Option ModalPropsObj) : ModalPropsObj :=
  let defaults : ModalPropsObj :=
    { isBlocking := some true,
      styles := some { minWidth := 450, maxWidth := 450 },
      className := none }
  spreadModalProps defaults (mp.getD emptyModalProps)

/-- The resolved attributes of the Dialog element in SimpleDialog.render:
`<Dialog {...dialogProps} hidden={false} dialogContentProps={...} modalProps={...}>`.
The spread is applied first; the named attributes that follow it win. -/
def dialogAttrs (title : Option String) (dp : Option DialogPropsObj)
    (dcp : Option DialogContentPropsObj) (mp : Option ModalPropsObj) :
    DialogAttrs :=
  let fromSpread : DialogAttrs :=
    { hidden := (dp.getD emptyDialogProps).hidden
      className := (dp.getD emptyDialogProps).className
      dialogContentProps := emptyContentProps
      modalProps := emptyModalProps }
  { fromSpread with
      hidden := some false
      dialogContentProps := mergedContentProps title dcp
      modalProps := mergedModalProps mp }

/-- The fields of ITextFieldProps that the prompt either reads or
forwards; `placeholder` stands for an arbitrary caller passthrough
field. -/
structure TextFieldPropsObj where
  label : Option String
  placeholder : Option String
  deriving DecidableEq, Repr

/-- The empty ITextFieldProps object literal. -/
def emptyTextFieldProps : TextFieldPropsObj :=
  { label := none, placeholder := none }

/-- JSX content, as far as the components build it: the `message` prop
(a string or an element), the prompt text field (with its forwarded
props and whether onChange is wired), a Label wrapper, and horizontal
composition. -/
inductive Content where
  | text (s : String)
  | element (ref : Nat)
  | textField (props : TextFieldPropsObj) (hasOnChange : Bool)
  | label (child : Content)
  | seq (a b : Content)
  deriving DecidableEq, Repr

/-- ISimpleDialogProps. -/
structure SimpleDialogProps where
  title : Option String
  message : Content
  buttons : List SimpleDialogButtonProps
  dialogProps : Option DialogPropsObj
  dialogContentProps : Option DialogContentPropsObj
  modalProps : Option ModalPropsObj

/-- A button element produced by SimpleDialog.render: a PrimaryButton or
DefaultButton carrying the forwarded IButtonProps, with `hasOnClick`
recording whether the click wrapper was attached. -/
structure RenderedButton where
  kind : SimpleDialogButtonType
  text : String
  href : Option String
  target : Option String
  styles : Option JSVal
  hasOnClick : Bool
  deriving Repr

/-- The body of the `buttons.map` callback in SimpleDialog.render: a
button is built only when `b.onClick || b.href` is truthy, the click
wrapper is attached only when `b.onClick` is truthy, and the switch on
`b.type` picks PrimaryButton or DefaultButton. -/
def renderButton (b : SimpleDialogButtonProps) : Option RenderedButton :=
  if onClickTruthy b.onClick || strTruthyOpt b.href then
    some { kind := b.type, text := b.text, href := b.href,
           target := b.target, styles := b.styles,
           hasOnClick := onClickTruthy b.onClick }
  else
    none

/-- A MessageBar element produced for one entry of the message list:
`messageBarType={m.type}`, the text child, and an onDismiss wired to
_onMessageDismissed. -/
structure MessageBarView where
  barType : JSVal
  text : JSVal
  hasOnDismiss : Bool
  deriving DecidableEq, Repr

/-- The JavaScript property read `m.type` on a message-list entry. -/
def jsGetType : JSVal → JSVal
  | .msgObj _ t _ => .num (Int.ofNat t)
  | _ => .undefined

/-- The JavaScript property read `m.text` on a message-list entry. -/
def jsGetText : JSVal → JSVal
  | .msgObj _ _ s => .str s
  | _ => .undefined

/-- The MessageBar list rendered from the component state:
`{this.state.messages.length > 0 && <> {this.state.messages.map(...)} </>}`. -/
def renderMessageBars (messages : List JSVal) : List MessageBarView :=
  if messages.length > 0 then
    messages.map (fun m =>
      { barType := jsGetType m, text := jsGetText m, hasOnDismiss := true })
  else
    []

/-- The whole output of SimpleDialog.render for a given message-list
state. -/
structure SimpleDialogView where
  attrs : DialogAttrs
  body : Content
  messageBars : List MessageBarView
  buttons : List (Option RenderedButton)

/-- SimpleDialog.render. -/
def renderSimpleDialog (p : SimpleDialogProps) (messages : List JSVal) :
    SimpleDialogView :=
  { attrs := dialogAttrs p.title p.dialogProps p.dialogContentProps
      p.modalProps
    body := p.message
    messageBars := renderMessageBars messages
    buttons := p.buttons.map renderButton }

/-- A caller-supplied onClose callback, given by its return behaviour.
Invoking it records exactly one onClose call carrying the argument list
it was invoked with. -/
def callerCallback (ret : List JSVal → JSVal) : Handler :=
  Handler.fn (fun args => { closeCalls := [args], ret := ret args })

/-- IAlertDialogProps.  `onClose` is the return behaviour of the
caller-supplied callback. -/
structure AlertDialogProps where
  title : Option String
  message : Content
  dialogProps : Option DialogPropsObj
  dialogContentProps : Option DialogContentPropsObj
  modalProps : Option ModalPropsObj
  buttonText : Option String
  onClose : List JSVal → JSVal

/-- AlertDialog.render: a SimpleDialog with only `title`, `message` and
one Primary button whose onClick is the onClose callback itself;
the base passthrough props are not forwarded by the JSX. -/
def renderAlertDialog (p : AlertDialogProps) : SimpleDialogProps :=
  { title := p.title
    message := p.message
    buttons := [
      { type := .Primary, text := jsOrStr p.buttonText "Okay",
        styles := none, onClick := some (callerCallback p.onClose),
        href := none, target := none }]
    dialogProps := none
    dialogContentProps := none
    modalProps := none }

/-- IConfirmDialogProps. -/
structure ConfirmDialogProps where
  title : Option String
  message : Content
  dialogProps : Option DialogPropsObj
  dialogContentProps : Option DialogContentPropsObj
  modalProps : Option ModalPropsObj
  confirmButtonText : Option String
  rejectButtonText : Option String
  onClose : List JSVal → JSVal

/-- ConfirmDialog.onConfirm: `() => { this.props.onClose(true); }` —
calls onClose with the single argument `true`, discards its result and
returns undefined. -/
def confirmDialogOnConfirm : Handler :=
  Handler.fn (fun _ =>
    { closeCalls := [[JSVal.bool true]], ret := JSVal.undefined })

/-- ConfirmDialog.onReject: `() => { this.props.onClose(false); }`. -/
def confirmDialogOnReject : Handler :=
  Handler.fn (fun _ =>
    { closeCalls := [[JSVal.bool false]], ret := JSVal.undefined })

/-- ConfirmDialog.render: reject button first (Default kind), confirm
button second (Primary kind); the base passthrough props are not
forwarded by the JSX. -/
def renderConfirmDialog (p : ConfirmDialogProps) : SimpleDialogProps :=
  { title := p.title
    message := p.message
    buttons := [
      { type := .Default, text := jsOrStr p.rejectButtonText "No",
        styles := none, onClick := some confirmDialogOnReject,
        href := none, target := none },
      { type := .Primary, text := jsOrStr p.confirmButtonText "Yes",
        styles := none, onClick := some confirmDialogOnConfirm,
        href := none, target := none }]
    dialogProps := none
    dialogContentProps := none
    modalProps := none }

/-- IPromptDialogProps. -/
structure PromptDialogProps where
  title : Option String
  message : Content
  dialogProps : Option DialogPropsObj
  dialogContentProps : Option DialogContentPropsObj
  modalProps : Option ModalPropsObj
  confirmButtonText : Option String
  rejectButtonText : Option String
  textFieldProps : Option TextFieldPropsObj
  messageAsLabel : Option Bool
  onClose : List JSVal → JSVal

/-- The optional chain `textFieldProps?.label` on the prompt props. -/
def promptLabelProp (p : PromptDialogProps) : Option String :=
  p.textFieldProps.bind (fun t => t.label)

/-- The console.warn text emitted by the PromptDialog constructor. -/
def promptWarningText : String :=
  "PromptDialog: messageAsLabel will be ignored because the textFieldProps.label has a value."

/-- The PromptDialog constructor: warns exactly when
`messageAsLabel && textFieldProps?.label` is truthy.  Returns the list
of console warnings it emits. -/
def promptConstructorWarnings (p : PromptDialogProps) : List String :=
  if boolTruthyOpt p.messageAsLabel && strTruthyOpt (promptLabelProp p) then
    [promptWarningText]
  else
    []

/-- The initial content of the private `_value` field:
the string-or-undefined slot starts as the empty string. -/
def promptInitialValue : Option String := some ""

/-- PromptDialog.onValueChanged: `this._value = newValue` —
last write wins, no validation, no trimming. -/
def promptOnValueChanged (newValue : Option String)
    (_value : Option String) : Option String :=
  newValue

/-- The content of `_value` after a sequence of text-change events, each
delivering the optional `newValue` of the event. -/
def promptValueAfter (changes : List (Option String)) : Option String :=
  changes.foldl (fun v nv => promptOnValueChanged nv v) promptInitialValue

/-- PromptDialog.onConfirm at a moment when `_value` holds `value`:
`() => { this.props.onClose(this._value); }`. -/
def promptDialogOnConfirm (value : Option String) : Handler :=
  Handler.fn (fun _ =>
    { closeCalls := [[jsOfOptStr value]], ret := JSVal.undefined })

/-- PromptDialog.onReject: `() => { this.props.onClose(null); }` —
the argument in the source is the literal `null`. -/
def promptDialogOnReject : Handler :=
  Handler.fn (fun _ =>
    { closeCalls := [[JSVal.null]], ret := JSVal.undefined })

/-- PromptDialog.renderMessage: the message followed by a TextField that
spreads `textFieldProps` and wires onChange; the pair is wrapped in a
Label exactly when `messageAsLabel && !textFieldProps?.label`. -/
def promptRenderMessage (p : PromptDialogProps) : Content :=
  let content := Content.seq p.message
    (Content.textField (p.textFieldProps.getD emptyTextFieldProps) true)
  if boolTruthyOpt p.messageAsLabel && !(strTruthyOpt (promptLabelProp p)) then
    Content.label content
  else
    content

/-- PromptDialog.render, at a moment when `_value` holds `value`:
reject button first (Default kind), confirm button second (Primary
kind); the base passthrough props are not forwarded by the JSX. -/
def renderPromptDialog (p : PromptDialogProps) (value : Option String) :
    SimpleDialogProps :=
  { title := p.title
    message := promptRenderMessage p
    buttons := [
      { type := .Default, text := jsOrStr p.rejectButtonText "No",
        styles := none, onClick := some promptDialogOnReject,
        href := none, target := none },
      { type := .Primary, text := jsOrStr p.confirmButtonText "Yes",
        styles := none, onClick := some (promptDialogOnConfirm value),
        href := none, target := none }]
    dialogProps := none
    dialogContentProps := none
    modalProps := none }

/-- The render path of PromptDialog emits no console warnings (neither
render nor renderMessage contains a console.warn call); the pair holds
the rendered SimpleDialog props and the warnings of that render. -/
def promptRender (p : PromptDialogProps) (value : Option String) :
    SimpleDialogProps × List String :=
  (renderPromptDialog p value, [])

/-- The console warnings emitted by constructing a PromptDialog and then
rendering it `renders` times: the constructor check runs once, renders
emit nothing. -/
def promptLifecycleWarnings (p : PromptDialogProps) (renders : Nat) :
    List String :=
  promptConstructorWarnings p ++
    (List.replicate renders (promptRender p promptInitialValue).2).flatten

/-- A concrete message object (one fixed reference). -/
def dupMessage : JSVal := JSVal.msgObj 0 1 "saved"

/-- A handler that returns the same message object on every call — the
way a module-level constant message is returned by a real onClick. -/
def constMsgHandler : Handler :=
  Handler.fn (fun _ => { closeCalls := [], ret := dupMessage })

/-- Concrete AlertDialog props whose caller sets a modal override
(isBlocking: false) and whose onClose returns undefined. -/
def alertPropsEx : AlertDialogProps :=
  { title := none
    message := Content.text "hello"
    dialogProps := none
    dialogContentProps := none
    modalProps :=
      some { isBlocking := some false, styles := none, className := none }
    buttonText := none
    onClose := fun _ => JSVal.undefined }

/-- The same base configuration handed directly to SimpleDialog. -/
def directSimpleProps : SimpleDialogProps :=
  { title := alertPropsEx.title
    message := alertPropsEx.message
    buttons := []
    dialogProps := alertPropsEx.dialogProps
    dialogContentProps := alertPropsEx.dialogContentProps
    modalProps := alertPropsEx.modalProps }

/-- A button descriptor whose onClick is a truthy non-callable value and
which has no href. -/
def nonCallableButton : SimpleDialogButtonProps :=
  { type := .Primary, text := "x", styles := none,
    onClick := some (Handler.nonCallable (JSVal.str "oops")),
    href := none, target := none }

/-- Concrete prompt props setting messageAsLabel with no explicit text
field label. -/
def promptPropsWrap : PromptDialogProps :=
  { title := some "Hi"
    message := Content.text "What is your name?"
    dialogProps := none
    dialogContentProps := none
    modalProps := none
    confirmButtonText := none
    rejectButtonText := none
    textFieldProps := none
    messageAsLabel := some true
    onClose := fun _ => JSVal.undefined }

/-- Concrete prompt props setting both messageAsLabel and an explicit
text field label. -/
def promptPropsBoth : PromptDialogProps :=
  { title := some "Hi"
    message := Content.text "What is your name?"
    dialogProps := none
    dialogContentProps := none
    modalProps := none
    confirmButtonText := none
    rejectButtonText := none
    textFieldProps := some { label := some "Name", placeholder := none }
    messageAsLabel := some true
    onClose := fun _ => JSVal.undefined }

/-- Concrete caller override of the dialog content props that sets every
modelled field, including a title the merge must discard. -/
def contentOverridesEx : DialogContentPropsObj :=
  { type := some .close, showCloseButton := some true,
    title := some "evil", subText := some "s" }

/-- Concrete caller override of the modal props. -/
def modalOverridesEx : ModalPropsObj :=
  { isBlocking := some false, styles := none, className := none }

/-- Concrete caller override of the dialog props that tries to hide the
dialog. -/
def dialogOverridesEx : DialogPropsObj :=
  { hidden := some true, className := some "k" }

theorem onButtonClicked_snd (onClick : Option Handler) (ev : JSVal)
    (messages : List JSVal) :
    (onButtonClicked onClick ev messages).2 =
      messages ++ appendedByClick onClick ev := by
  match onClick with
  | some (.fn f) =>
      simp only [onButtonClicked, appendedByClick]
      by_cases h : truthy (f [ev]).ret = true
      · simp [h]
      · simp [h]
  | some (.nonCallable v) => simp [onButtonClicked, appendedByClick]
  | none => simp [onButtonClicked, appendedByClick]

theorem runClicks_snd (clicks : List (Option Handler × JSVal))
    (messages : List JSVal) :
    (runClicks clicks messages).2 =
      messages ++ (clicks.map (fun c => appendedByClick c.1 c.2)).flatten := by
  induction clicks generalizing messages with
  | nil => simp [runClicks]
  | cons c rest ih =>
      simp only [runClicks, List.map_cons, List.flatten_cons]
      rw [ih, onButtonClicked_snd, List.append_assoc]

/-- C4: on activation of a button, a callable onClick is invoked with the
triggering event; its return value is appended to the end of the message
list exactly when it is truthy; over a sequence of activations the
appended messages accumulate exactly once each, in activation order,
with no de-duplication and no cap on the length of the list. -/
theorem C4_button_activation :
    (∀ (f : List JSVal → HandlerOutcome) (ev : JSVal)
        (messages : List JSVal),
      (onButtonClicked (some (Handler.fn f)) ev messages).1 =
        (f [ev]).closeCalls) ∧
    (∀ (onClick : Option Handler) (ev : JSVal) (messages : List JSVal),
      (onButtonClicked onClick ev messages).2 =
        messages ++ appendedByClick onClick ev) ∧
    (∀ (f : List JSVal → HandlerOutcome) (ev : JSVal)
        (messages : List JSVal),
      truthy (f [ev]).ret = true ↔
        (onButtonClicked (some (Handler.fn f)) ev messages).2 =
          messages ++ [(f [ev]).ret]) ∧
    (∀ (clicks : List (Option Handler × JSVal)) (messages : List JSVal),
      (runClicks clicks messages).2 =
        messages ++
          (clicks.map (fun c => appendedByClick c.1 c.2)).flatten) := by
  refine ⟨fun f ev messages => rfl, onButtonClicked_snd, ?_, runClicks_snd⟩
  intro f ev messages
  constructor
  · intro h
    simp [onButtonClicked, h]
  · intro h
    by_contra hn
    simp only [onButtonClicked, Bool.not_eq_true] at h hn
    rw [if_neg (by simp [hn])] at h
    have hl := congrArg List.length h
    simp at hl

/-- Witness for C4 at a concrete handler, event and state. -/
theorem C4_button_activation_witness :
    (onButtonClicked (some constMsgHandler) (JSVal.obj 7) []).2 =
      [dupMessage] := by
  have h :=
    (C4_button_activation.2.2.1
      (fun _ => { closeCalls := [], ret := dupMessage }) (JSVal.obj 7) [])
  simpa [constMsgHandler] using h.mp (by decide)

/-- C5 counterexample: the duplicate-reference state [m, m] is reachable
by two activations of a handler returning the same object, and a dismiss
request for m then removes BOTH entries, not exactly the first one. -/
theorem C5_counterexample_dismiss :
    (runClicks [(some constMsgHandler, JSVal.obj 1),
        (some constMsgHandler, JSVal.obj 2)] []).2 =
      [dupMessage, dupMessage] ∧
    onMessageDismissed dupMessage [dupMessage, dupMessage] = [] ∧
    ([] : List JSVal) ≠ [dupMessage] := by
  refine ⟨by decide, by decide, by decide⟩

/-- C5 amended: a dismiss request for m removes every list entry that is
strictly (reference-) equal to m — a single entry whenever the reference
occurs once — preserving the order of the others; it is a no-op when no
entry matches, it is idempotent, and reference-distinct but structurally
identical messages are independently dismissible. -/
theorem C5_amended_dismissal :
    (∀ (m : JSVal) (l : List JSVal),
      (onMessageDismissed m l).Sublist l) ∧
    (∀ (m x : JSVal) (l : List JSVal),
      x ∈ onMessageDismissed m l ↔ x ∈ l ∧ jsStrictEq x m = false) ∧
    (∀ (m : JSVal) (l : List JSVal),
      (∀ x ∈ l, jsStrictEq x m = false) → onMessageDismissed m l = l) ∧
    (∀ (m : JSVal) (l : List JSVal),
      onMessageDismissed m (onMessageDismissed m l) =
        onMessageDismissed m l) ∧
    (∀ (i j t : Nat) (s : String), i ≠ j →
      onMessageDismissed (JSVal.msgObj i t s)
          [JSVal.msgObj i t s, JSVal.msgObj j t s] =
        [JSVal.msgObj j t s]) := by
  refine ⟨?_, ?_, ?_, ?_, ?_⟩
  · intro m l
    exact List.filter_sublist l
  · intro m x l
    simp [onMessageDismissed]
  · intro m l h
    rw [onMessageDismissed, List.filter_eq_self]
    intro a ha
    simp [h a ha]
  · intro m l
    simp [onMessageDismissed, List.filter_filter]
  · intro i j t s hij
    simp [onMessageDismissed, jsStrictEq]
    omega

/-- Witness for C5 amended at concrete messages. -/
theorem C5_amended_dismissal_witness :
    onMessageDismissed (JSVal.msgObj 0 1 "a")
        [JSVal.msgObj 0 1 "a", JSVal.msgObj 3 1 "a"] =
      [JSVal.msgObj 3 1 "a"] :=
  C5_amended_dismissal.2.2.2.2 0 3 1 "a" (by decide)

/-- C1: confirm invokes onClose exactly once with the current
uncommitted value — the empty string when the field was never touched,
otherwise the value of the last change event — but the reject handler in
the source invokes onClose with the literal null, which is a distinct
JavaScript value from the undefined that the documentation promises. -/
theorem C1_prompt_close_values :
    (∀ (changes : List (Option String)) (ev : JSVal)
        (messages : List JSVal),
      (onButtonClicked (some (promptDialogOnConfirm
          (promptValueAfter changes))) ev messages).1 =
        [[jsOfOptStr (promptValueAfter changes)]]) ∧
    promptValueAfter [] = some "" ∧
    (∀ (changes : List (Option String)) (v : Option String),
      promptValueAfter (changes ++ [v]) = v) ∧
    (∀ (ev : JSVal) (messages : List JSVal),
      (onButtonClicked (some promptDialogOnReject) ev messages).1 =
        [[JSVal.null]]) ∧
    JSVal.null ≠ JSVal.undefined := by
  refine ⟨fun changes ev messages => rfl, rfl, ?_, fun ev messages => rfl,
    by decide⟩
  intro changes v
  simp [promptValueAfter, promptOnValueChanged]

/-- C2 counterexample: the single alert button click invokes the onClose
callback with the triggering event as its argument list, not with an
empty argument list. -/
theorem C2_counterexample_event_argument :
    ((renderAlertDialog alertPropsEx).buttons.map
        (fun b => (onButtonClicked b.onClick (JSVal.obj 5) []).1)) =
      [[[JSVal.obj 5]]] ∧
    ([JSVal.obj 5] : List JSVal) ≠ [] := by
  exact ⟨rfl, by decide⟩

/-- C2 amended: AlertDialog renders exactly one button, of Primary kind,
labeled buttonText or Okay when buttonText is absent or empty, and
clicking it invokes onClose exactly once per click — the call passes the
triggering click event as its one argument (the declared signature of
onClose ignores it). -/
theorem C2_amended_alert_button (p : AlertDialogProps) (ev : JSVal)
    (messages : List JSVal) :
    (renderAlertDialog p).buttons.map renderButton =
      [some { kind := SimpleDialogButtonType.Primary,
              text := jsOrStr p.buttonText "Okay", href := none,
              target := none, styles := none, hasOnClick := true }] ∧
    (renderAlertDialog p).buttons.map
        (fun b => (onButtonClicked b.onClick ev messages).1) =
      [[[ev]]] :=
  ⟨rfl, rfl⟩

/-- C3: none of the three variants forwards the base passthrough props
(dialogProps, dialogContentProps, modalProps) to SimpleDialog, so a
caller-supplied override is silently dropped: the final modal
configuration of an AlertDialog given isBlocking: false keeps the
default isBlocking: true, while the same override handed directly to
SimpleDialog takes effect. -/
theorem C3_variants_drop_base_props :
    (∀ p : AlertDialogProps,
      (renderAlertDialog p).dialogProps = none ∧
      (renderAlertDialog p).dialogContentProps = none ∧
      (renderAlertDialog p).modalProps = none) ∧
    (∀ p : ConfirmDialogProps,
      (renderConfirmDialog p).dialogProps = none ∧
      (renderConfirmDialog p).dialogContentProps = none ∧
      (renderConfirmDialog p).modalProps = none) ∧
    (∀ (p : PromptDialogProps) (v : Option String),
      (renderPromptDialog p v).dialogProps = none ∧
      (renderPromptDialog p v).dialogContentProps = none ∧
      (renderPromptDialog p v).modalProps = none) ∧
    (renderSimpleDialog (renderAlertDialog alertPropsEx)
        []).attrs.modalProps.isBlocking = some true ∧
    (renderSimpleDialog directSimpleProps []).attrs.modalProps.isBlocking =
      some false :=
  ⟨fun _ => ⟨rfl, rfl, rfl⟩, fun _ => ⟨rfl, rfl, rfl⟩,
    fun _ _ => ⟨rfl, rfl, rfl⟩, rfl, rfl⟩

theorem orElse_getD_some {α : Type} (b : Option α) (a : α) :
    (b.orElse fun _ => some a) = some (b.getD a) := by
  cases b <;> rfl

theorem orElse_none_right {α : Type} (b : Option α) :
    (b.orElse fun _ => none) = b := by
  cases b <;> rfl

theorem jsOrStr_empty_default (t : Option String) :
    jsOrStr t "" = t.getD "" := by
  cases t with
  | none => rfl
  | some s =>
      simp only [jsOrStr, Option.getD_some]
      by_cases h : s = ""
      · simp [h]
      · simp [h]

/-- C6: the final dialog configuration forces hidden to false regardless
of caller dialogProps, applies the content and modal defaults
field-by-field with the caller winning exactly on the fields it
supplies, never drops a default to absent, passes unrelated caller
fields through, and always carries the caller title — forced to the
empty string when absent — even when the caller content overrides supply
their own title. -/
theorem C6_config_merge (t : Option String) (dp : Option DialogPropsObj)
    (dcp : Option DialogContentPropsObj) (mp : Option ModalPropsObj) :
    (dialogAttrs t dp dcp mp).hidden = some false ∧
    (dialogAttrs t dp dcp mp).dialogContentProps.title = some (t.getD "") ∧
    (dialogAttrs t dp dcp mp).className = (dp.getD emptyDialogProps).className ∧
    ((dialogAttrs t dp dcp mp).dialogContentProps.type.isSome = true ∧
      (dialogAttrs t dp dcp mp).dialogContentProps.showCloseButton.isSome = true ∧
      (dialogAttrs t dp dcp mp).modalProps.isBlocking.isSome = true ∧
      (dialogAttrs t dp dcp mp).modalProps.styles.isSome = true) ∧
    (∀ c, dcp = some c →
      (dialogAttrs t dp dcp mp).dialogContentProps.type =
          some (c.type.getD .normal) ∧
      (dialogAttrs t dp dcp mp).dialogContentProps.showCloseButton =
          some (c.showCloseButton.getD false) ∧
      (dialogAttrs t dp dcp mp).dialogContentProps.subText = c.subText) ∧
    (dcp = none →
      (dialogAttrs t dp dcp mp).dialogContentProps =
        { type := some .normal, showCloseButton := some false,
          title := some (t.getD ""), subText := none }) ∧
    (∀ m, mp = some m →
      (dialogAttrs t dp dcp mp).modalProps.isBlocking =
          some (m.isBlocking.getD true) ∧
      (dialogAttrs t dp dcp mp).modalProps.styles =
          some (m.styles.getD { minWidth := 450, maxWidth := 450 }) ∧
      (dialogAttrs t dp dcp mp).modalProps.className = m.className) ∧
    (mp = none →
      (dialogAttrs t dp dcp mp).modalProps =
        { isBlocking := some true,
          styles := some { minWidth := 450, maxWidth := 450 },
          className := none }) := by
  refine ⟨rfl, ?_, rfl, ?_, ?_, ?_, ?_, ?_⟩
  · simp [dialogAttrs, mergedContentProps, jsOrStr_empty_default]
  · cases dcp <;> cases mp <;>
      simp [dialogAttrs, mergedContentProps, mergedModalProps,
        spreadContentProps, spreadModalProps, emptyContentProps,
        emptyModalProps, orElse_getD_some]
  · intro c hc
    subst hc
    simp [dialogAttrs, mergedContentProps, spreadContentProps,
      orElse_getD_some, orElse_none_right]
  · intro hc
    subst hc
    simp [dialogAttrs, mergedContentProps, spreadContentProps,
      emptyContentProps, jsOrStr_empty_default, orElse_getD_some,
      orElse_none_right]
  · intro m hm
    subst hm
    simp [dialogAttrs, mergedModalProps, spreadModalProps,
      orElse_getD_some, orElse_none_right]
  · intro hm
    subst hm
    simp [dialogAttrs, mergedModalProps, spreadModalProps,
      emptyModalProps, orElse_getD_some, orElse_none_right]

/-- Witness for C6 at a caller that overrides every modelled field. -/
theorem C6_config_merge_witness :
    (dialogAttrs (some "T") (some dialogOverridesEx)
        (some contentOverridesEx) (some modalOverridesEx)).hidden =
      some false ∧
    (dialogAttrs (some "T") (some dialogOverridesEx)
        (some contentOverridesEx)
        (some modalOverridesEx)).dialogContentProps.title = some "T" ∧
    (dialogAttrs (some "T") (some dialogOverridesEx)
        (some contentOverridesEx)
        (some modalOverridesEx)).dialogContentProps.type =
      some DialogTypeV.close ∧
    (dialogAttrs (some "T") (some dialogOverridesEx)
        (some contentOverridesEx)
        (some modalOverridesEx)).modalProps.isBlocking = some false ∧
    (dialogAttrs (some "T") (some dialogOverridesEx)
        (some contentOverridesEx)
        (some modalOverridesEx)).modalProps.styles =
      some { minWidth := 450, maxWidth := 450 } := by
  have h := C6_config_merge (some "T") (some dialogOverridesEx)
    (some contentOverridesEx) (some modalOverridesEx)
  refine ⟨h.1, by simpa using h.2.1, ?_, ?_, ?_⟩
  · simpa [contentOverridesEx] using (h.2.2.2.2.1 contentOverridesEx rfl).1
  · simpa [modalOverridesEx] using (h.2.2.2.2.2.2.1 modalOverridesEx rfl).1
  · simpa [modalOverridesEx] using (h.2.2.2.2.2.2.1 modalOverridesEx rfl).2.1

/-- C7: ConfirmDialog renders exactly two buttons, reject first (Default
kind, labeled rejectButtonText or No) and confirm second (Primary kind,
labeled confirmButtonText or Yes); per activation, confirm invokes
onClose exactly once with true and reject exactly once with false, for
every choice of label texts. -/
theorem C7_confirm_dialog (p : ConfirmDialogProps) (ev : JSVal)
    (messages : List JSVal) :
    (renderConfirmDialog p).buttons.map renderButton =
      [some { kind := SimpleDialogButtonType.Default,
              text := jsOrStr p.rejectButtonText "No", href := none,
              target := none, styles := none, hasOnClick := true },
       some { kind := SimpleDialogButtonType.Primary,
              text := jsOrStr p.confirmButtonText "Yes", href := none,
              target := none, styles := none, hasOnClick := true }] ∧
    (renderConfirmDialog p).buttons.map
        (fun b => (onButtonClicked b.onClick ev messages).1) =
      [[[JSVal.bool false]], [[JSVal.bool true]]] :=
  ⟨rfl, rfl⟩

/-- C8 counterexample: a truthy non-callable onClick is not treated as
absent by the renderer — the descriptor still produces a button, while
the same descriptor without onClick produces none. -/
theorem C8_counterexample_noncallable_renders :
    (renderButton nonCallableButton).isSome = true ∧
    renderButton { nonCallableButton with onClick := none } = none :=
  ⟨rfl, rfl⟩

/-- C8 amended: a descriptor with neither onClick nor href renders
nothing; a non-callable onClick is treated as absent at activation time —
the click invokes nothing, appends nothing and never fails — but a
truthy non-callable value still causes the button to be rendered. -/
theorem C8_amended_buttonless_descriptors
    (ty : SimpleDialogButtonType) (txt : String) (styles : Option JSVal)
    (tgt : Option String) (v ev : JSVal) (messages : List JSVal) :
    renderButton
      { type := ty, text := txt, styles := styles, onClick := none,
        href := none, target := tgt } = none ∧
    onButtonClicked (some (Handler.nonCallable v)) ev messages =
      ([], messages) ∧
    (truthy v = true →
      (renderButton
        { type := ty, text := txt, styles := styles,
          onClick := some (Handler.nonCallable v), href := none,
          target := tgt }).isSome = true) := by
  refine ⟨rfl, rfl, ?_⟩
  intro hv
  simp [renderButton, onClickTruthy, hv]

/-- Witness for C8 amended at a concrete descriptor. -/
theorem C8_amended_buttonless_descriptors_witness :
    renderButton
      { type := SimpleDialogButtonType.Primary, text := "x",
        styles := none, onClick := none, href := none, target := none } =
      none ∧
    onButtonClicked (some (Handler.nonCallable (JSVal.str "oops")))
        (JSVal.obj 0) [] = ([], []) ∧
    (renderButton
      { type := SimpleDialogButtonType.Primary, text := "x",
        styles := none,
        onClick := some (Handler.nonCallable (JSVal.str "oops")),
        href := none, target := none }).isSome = true := by
  have h := C8_amended_buttonless_descriptors SimpleDialogButtonType.Primary
    "x" none none (JSVal.str "oops") (JSVal.obj 0) []
  exact ⟨h.1, h.2.1, h.2.2 (by decide)⟩

/-- C9: with messageAsLabel set and no explicit text field label, the
message and the field are wrapped together in a single Label; with both
set, the constructor emits the diagnostic warning exactly once, the
content is not wrapped and the explicit label reaches the TextField; the
warning comes only from construction — renders emit none, however many
happen. -/
theorem C9_label_composition (p : PromptDialogProps) (n : Nat) :
    (boolTruthyOpt p.messageAsLabel = true → promptLabelProp p = none →
      promptRenderMessage p =
        Content.label (Content.seq p.message
          (Content.textField (p.textFieldProps.getD emptyTextFieldProps)
            true))) ∧
    (∀ s, boolTruthyOpt p.messageAsLabel = true →
      promptLabelProp p = some s → s ≠ "" →
      promptConstructorWarnings p = [promptWarningText] ∧
      promptRenderMessage p =
        Content.seq p.message
          (Content.textField (p.textFieldProps.getD emptyTextFieldProps)
            true) ∧
      (p.textFieldProps.getD emptyTextFieldProps).label = some s) ∧
    promptLifecycleWarnings p n = promptConstructorWarnings p ∧
    (promptRender p promptInitialValue).2 = [] := by
  refine ⟨?_, ?_, ?_, rfl⟩
  · intro hmal hlab
    simp [promptRenderMessage, hmal, hlab, strTruthyOpt]
  · intro s hmal hlab hs
    have hl : strTruthyOpt (promptLabelProp p) = true := by
      simp [hlab, strTruthyOpt, hs]
    refine ⟨?_, ?_, ?_⟩
    · simp [promptConstructorWarnings, hmal, hl]
    · simp [promptRenderMessage, hmal, hl]
    · match ht : p.textFieldProps with
      | none => simp [promptLabelProp, ht] at hlab
      | some tf =>
          simp only [promptLabelProp, ht, Option.some_bind] at hlab
          simp [ht, hlab]
  · simp [promptLifecycleWarnings, promptRender]

/-- Witness for C9 at concrete prompt props, for both branches and three
renders. -/
theorem C9_label_composition_witness :
    promptRenderMessage promptPropsWrap =
      Content.label (Content.seq promptPropsWrap.message
        (Content.textField emptyTextFieldProps true)) ∧
    promptConstructorWarnings promptPropsBoth = [promptWarningText] ∧
    promptRenderMessage promptPropsBoth =
      Content.seq promptPropsBoth.message
        (Content.textField { label := some "Name", placeholder := none }
          true) ∧
    promptLifecycleWarnings promptPropsBoth 3 = [promptWarningText] := by
  have h1 := C9_label_composition promptPropsWrap 3
  have h2 := C9_label_composition promptPropsBoth 3
  have hb := h2.2.1 "Name" rfl rfl (by decide)
  refine ⟨by simpa [promptPropsWrap] using h1.1 rfl rfl, hb.1,
    by simpa [promptPropsBoth] using hb.2.1, ?_⟩
  rw [h2.2.2.1, hb.1]

/-- C10: the return value of the onClose callback of an AlertDialog is
appended to the message list exactly when truthy (onClose doubles as the
onClick handler), and every appended entry is rendered as a dismissible
MessageBar; ConfirmDialog and PromptDialog clicks always leave the list
unchanged, because their internal handlers return nothing. -/
theorem C10_onclose_return_values (p : AlertDialogProps)
    (cp : ConfirmDialogProps) (pp : PromptDialogProps)
    (value : Option String) (ev m : JSVal) (messages : List JSVal) :
    (renderAlertDialog p).buttons.map
        (fun b => (onButtonClicked b.onClick ev messages).2) =
      [if truthy (p.onClose [ev]) then messages ++ [p.onClose [ev]]
       else messages] ∧
    renderMessageBars (messages ++ [m]) =
      renderMessageBars messages ++
        [{ barType := jsGetType m, text := jsGetText m,
           hasOnDismiss := true }] ∧
    (renderConfirmDialog cp).buttons.map
        (fun b => (onButtonClicked b.onClick ev messages).2) =
      [messages, messages] ∧
    (renderPromptDialog pp value).buttons.map
        (fun b => (onButtonClicked b.onClick ev messages).2) =
      [messages, messages] := by
  refine ⟨rfl, ?_, rfl, rfl⟩
  cases messages <;> simp [renderMessageBars]

end SimpleDialogSpec
